import Mathlib

/-!
Shallow embedding of `src/facebook.py` (a thin Facebook Graph API client
plus wall/like analysis) and proofs about the claims of its specification.

The embedding models Python values explicitly:
* decoded JSON responses are a `Json` inductive; Python truthiness is `Json.truthy`;
* Python dicts that the code indexes by string keys are association lists
  (`pyLookup` / `pySet` model `d.get(k)` / `d[k] = v`);
* a run-time error raised by the code is an `Except.error` carrying a `PyErr`;
* the filter arguments of `User.filter_wall` (which default to `False` in the
  source) are an `Arg` inductive; crucially, Python's `bool` is a subclass of
  `int`, so `isinstance(False, int)` is `True`, which `Arg.isInt` reproduces.
-/

/-- A decoded JSON value, as produced by `_parse_json`. Numbers are modelled
as integers (the ids this client manipulates are integral). -/
inductive Json where
  | null
  | bool (b : Bool)
  | num (n : Int)
  | str (s : String)
  | arr (elts : List Json)
  | obj (fields : List (String × Json))

/-- Python truthiness of a decoded JSON value: `None`, `False`, `0`, `""`,
`[]` and `{}` are falsy, everything else is truthy. -/
def Json.truthy : Json → Bool
  | .null => false
  | .bool b => b
  | .num n => n != 0
  | .str s => !s.isEmpty
  | .arr elts => !elts.isEmpty
  | .obj fields => !fields.isEmpty

/-- Model of `d.get(k)` on a Python dict modelled as an association list:
the value at the first matching key, or `none`. -/
def pyLookup (k : String) : List (String × Json) → Option Json
  | [] => none
  | (k', v) :: rest => if k' = k then some v else pyLookup k rest

/-- Model of `d[k] = v` on a Python dict modelled as an association list:
overwrite the first binding of `k` if present, otherwise append the new
binding. -/
def pySet (d : List (String × Json)) (k : String) (v : Json) : List (String × Json) :=
  match d with
  | [] => [(k, v)]
  | (k', v') :: rest => if k' = k then (k, v) :: rest else (k', v') :: pySet rest k v

/-- A run-time error raised by the Python code. -/
inductive PyErr where
  | invalidArgument                 -- `raise Exception("Invalid id type.")` in `get_object`
  | apiError (ty msg : Json)        -- `raise Exception(response["error"]["type"], response["error"]["message"])`
  | keyError                        -- subscripting a dict with a missing key
  | typeError                       -- subscripting a non-dict value
  | valueError                      -- tuple unpacking with the wrong number of parts
  | nameError                       -- use of an undefined name

/-- The error-detection step of `GraphAPI.request` after JSON decoding
(`src/facebook.py` lines 132-135): `if response.get("error"):` raises an
exception carrying `response["error"]["type"]` and
`response["error"]["message"]`, otherwise the decoded response is returned
unchanged. The `.get` call assumes the decoded response is a JSON object. -/
def handleResponse (response : List (String × Json)) : Except PyErr Json :=
  match pyLookup "error" response with
  | none => .ok (.obj response)
  | some e =>
    if e.truthy then
      match e with
      | .obj ef =>
        match pyLookup "type" ef, pyLookup "message" ef with
        | some t, some m => .error (.apiError t m)
        | _, _ => .error .keyError
      | _ => .error .typeError
    else .ok (.obj response)

/-- Model of `if not args: args = {}` in `GraphAPI.request` (line 119): the
default `None` (and an empty dict, which is falsy) is replaced by a fresh
empty dict. -/
def normalizeArgs : Option (List (String × Json)) → List (String × Json)
  | none => []
  | some a => if a.isEmpty then [] else a

/-- The credential-attachment step of `GraphAPI.request`
(`src/facebook.py` lines 119-124): after defaulting `args`, if an access token
is stored then it is written into `post_args` when `post_args is not None`,
and into `args` otherwise. Returns the resulting `(args, post_args)` pair. -/
def attachToken (access_token : Option String) (args : Option (List (String × Json)))
    (post_args : Option (List (String × Json))) :
    List (String × Json) × Option (List (String × Json)) :=
  let args := normalizeArgs args
  match access_token with
  | none => (args, post_args)
  | some tok =>
    match post_args with
    | some pa => (args, some (pySet pa "access_token" (.str tok)))
    | none => (pySet args "access_token" (.str tok), none)

/-- The `ids` argument of `GraphAPI.get_object`: a Python string, list, set
(modelled by its iteration sequence), or a scalar of another type (`int`,
`None`). -/
inductive Ids where
  | str (s : String)
  | list (l : List String)
  | set (l : List String)
  | int (i : Int)
  | pyNone

/-- Python's `",".join(ids)`. -/
def pyJoin (sep : String) : List String → String
  | [] => ""
  | [s] => s
  | s :: rest => s ++ sep ++ pyJoin sep rest

/-- Embedding of `GraphAPI.get_object` (`src/facebook.py` lines 80-84), up to the point
where it hands off to `self.request(ids, args)`: for a list or a set the
joined comma-separated ids are stored in `args` under the reserved `"ids"`
key; a non-string scalar raises `Exception("Invalid id type.")` before any
request is issued. On success the result is the `(path, args)` argument pair
passed to `request` (the network itself is outside the model). -/
def get_object (ids : Ids) (args : List (String × Json)) :
    Except PyErr (Ids × List (String × Json)) :=
  match ids with
  | .list l => .ok (ids, pySet args "ids" (.str (pyJoin "," l)))
  | .set l => .ok (ids, pySet args "ids" (.str (pyJoin "," l)))
  | .str _ => .ok (ids, args)
  | .int _ => .error .invalidArgument
  | .pyNone => .error .invalidArgument

/-- Does `sep` occur as a prefix of `s`? (character-list version) -/
def leadsWith : List Char → List Char → Bool
  | [], _ => true
  | _ :: _, [] => false
  | c :: cs, d :: ds => d == c && leadsWith cs ds

/-- Fuel-driven worker for `pySplit`. Each step consumes at least one
character of the input, so fuel equal to the input length suffices. -/
def pySplitAux (sep : List Char) : Nat → List Char → List Char → List (List Char)
  | _, [], acc => [acc.reverse]
  | 0, rest, acc => [acc.reverse ++ rest]
  | fuel + 1, c :: cs, acc =>
    if leadsWith sep (c :: cs) then
      acc.reverse :: pySplitAux sep fuel (cs.drop (sep.length - 1)) []
    else
      pySplitAux sep fuel cs (c :: acc)

/-- Python's `s.split(sep)` for a nonempty separator string: the input is cut
at each (leftmost, non-overlapping) occurrence of the exact substring `sep`. -/
def pySplit (sep s : String) : List String :=
  (pySplitAux sep.data s.data.length s.data []).map String.mk

/-- A naive datetime value (what `datetime.datetime(...)` would build).
Python compares datetimes lexicographically by components. -/
structure PyDateTime where
  year : Int
  month : Int
  day : Int
  hour : Int
  minute : Int
  second : Int
deriving DecidableEq, Repr

/-- Strict comparison of datetimes, lexicographic on the components, as
Python's `datetime` ordering is. -/
def PyDateTime.ltb (a b : PyDateTime) : Bool :=
  if a.year != b.year then decide (a.year < b.year)
  else if a.month != b.month then decide (a.month < b.month)
  else if a.day != b.day then decide (a.day < b.day)
  else if a.hour != b.hour then decide (a.hour < b.hour)
  else if a.minute != b.minute then decide (a.minute < b.minute)
  else decide (a.second < b.second)

/-- The `created_time` normalization step in `User.__init__`
(`src/facebook.py` lines 179-184):

`year, month, day, hour, minute, second, tzinfo = post['created_time'].split('-T:+')`

Python's `str.split('-T:+')` splits on the exact four-character substring
`-T:+`. The 7-way unpacking raises `ValueError` unless the split yields
exactly seven parts; when it does, the next line calls
`datetime.datetime(year, ...)` — but the `datetime` module is never imported
in the source, so that line raises `NameError` (and would raise `TypeError`
anyway, since the parts are strings while the constructor requires
integers). The step therefore never produces a `PyDateTime`. -/
def normalize_created_time (s : String) : Except PyErr PyDateTime :=
  match pySplit "-T:+" s with
  | [_, _, _, _, _, _, _] => .error .nameError
  | _ => .error .valueError

/-- A graph entity as it occurs inside a post: the `id` and `name` fields of
`post['from']`, of a `post['likes']['data']` entry, or of a
`comment['from']`. -/
structure Entity where
  id : Int
  name : String
deriving DecidableEq, Repr

/-- A wall post after `User.__init__` keeps the `import_fields`
`{comments, created_time, from, likes, message}` and normalizes
`created_time`. `likes` holds the entries of `post['likes']['data']`;
`comments` holds `comment['from']` for each entry of
`post['comments']['data']`; the `message` field is irrelevant to every
claim's operation and is carried verbatim. -/
structure Post where
  created_time : PyDateTime
  «from» : Entity
  likes : List Entity
  comments : List Entity
  message : String
deriving DecidableEq, Repr

/-- A value passed for one of the optional filter parameters of
`User.filter_wall`: the default `False`, an `int`, a `str`, or a
`datetime.datetime`. -/
inductive Arg where
  | fls
  | int (i : Int)
  | str (s : String)
  | time (t : PyDateTime)
deriving DecidableEq, Repr

/-- Model of `isinstance(x, datetime.datetime)`. -/
def Arg.isDatetime : Arg → Bool
  | .time _ => true
  | _ => false

/-- Model of `isinstance(x, int)`. Python's `bool` is a subclass of `int`,
so `isinstance(False, int)` is `True`: the default `False` satisfies this
check. -/
def Arg.isInt : Arg → Bool
  | .int _ => true
  | .fls => true
  | _ => false

/-- Model of `isinstance(x, str)`. -/
def Arg.isStr : Arg → Bool
  | .str _ => true
  | _ => false

/-- Python `==` between an integer id from the data and a filter argument:
`False == 0` is `True` (bool is a subclass of int); comparisons against a
string or a datetime are `False`. -/
def pyEqInt (n : Int) : Arg → Bool
  | .int i => n == i
  | .fls => n == 0
  | _ => false

/-- Python `==` between a name string from the data and a filter argument:
equal only to an equal string; cross-type comparisons are `False`. -/
def pyEqStr (s : String) : Arg → Bool
  | .str s' => s == s'
  | _ => false

/-- The state of a `User` object after `__init__`: the raw profile object
`me`, the raw friends payload, the normalized wall, and the like ids. -/
structure User where
  me : Json
  friends : Json
  wall : List Post
  likes : List Int

/-- Embedding of `User.filter_wall` (`src/facebook.py` lines 199-244) as a
state transformer: the returned pair is (result list, the `self` state after
the call). The body is a literal translation of the five filter sections,
including the two slips in the source: line 236 and line 241 guard the
string branches of the liked-by and commented-by filters on
`isinstance(author, str)`, and lines 234/239 both guard on
`isinstance(liked_by, int)`. A Python list comprehension used as an `if`
condition is truthy iff non-empty. No attribute of `self` is assigned,
so the state component is `u` itself. -/
def User.filter_wallS (u : User)
    (time_start time_end author liked_by commented_by : Arg) :
    List Post × User :=
  let posts := u.wall
  let posts :=
    if time_start.isDatetime then
      match time_start with
      | .time t => posts.filter fun p => t.ltb p.created_time
      | _ => posts
    else posts
  let posts :=
    if time_end.isDatetime then
      match time_end with
      | .time t => posts.filter fun p => p.created_time.ltb t
      | _ => posts
    else posts
  let posts :=
    if author.isInt then posts.filter fun p => pyEqInt p.«from».id author
    else if author.isStr then posts.filter fun p => pyEqStr p.«from».name author
    else posts
  let posts :=
    if liked_by.isInt then
      posts.filter fun p => !(p.likes.filter fun l => pyEqInt l.id liked_by).isEmpty
    else if author.isStr then
      posts.filter fun p => !(p.likes.filter fun l => pyEqStr l.name liked_by).isEmpty
    else posts
  let posts :=
    if liked_by.isInt then
      posts.filter fun p => !(p.comments.filter fun c => pyEqInt c.id commented_by).isEmpty
    else if author.isStr then
      posts.filter fun p => !(p.comments.filter fun c => pyEqStr c.name commented_by).isEmpty
    else posts
  (posts, u)

/-- The result list of `User.filter_wall`. -/
def User.filter_wall (u : User)
    (time_start time_end author liked_by commented_by : Arg) : List Post :=
  (u.filter_wallS time_start time_end author liked_by commented_by).1

/-- Embedding of `User.intersect` (`src/facebook.py` lines 186-197) as a
state transformer: `list(set(self.likes) & set(friend.likes))` builds the
set intersection of the two like-id lists; the list it is converted back to
has arbitrary (hash) order, so the result is modelled as the `Finset` of
common ids. Neither `self` nor `friend` is assigned, so both states are
returned unchanged. -/
def User.intersectS (u friend : User) : Finset Int × User × User :=
  (u.likes.toFinset ∩ friend.likes.toFinset, u, friend)

/-- The result of `User.intersect`. -/
def User.intersect (u friend : User) : Finset Int :=
  (u.intersectS friend).1

/-- String check on the `ids` argument: `isinstance(ids, str)`. -/
def Ids.isString : Ids → Bool
  | .str _ => true
  | _ => false

/-- Collection check on the `ids` argument:
`isinstance(ids, list) or isinstance(ids, set)`. -/
def Ids.isCollection : Ids → Bool
  | .list _ => true
  | .set _ => true
  | _ => false

/-- A concrete wall post authored by id 1 ("Alice"), used to evaluate
`filter_wall` with every filter left at its default. -/
def wallPostA : Post :=
  ⟨⟨2021, 3, 5, 14, 30, 0⟩, ⟨1, "Alice"⟩, [], [], "hello"⟩

/-- A user whose wall holds exactly `wallPostA`. -/
def userA : User := ⟨.null, .null, [wallPostA], []⟩

/-- A timestamp strictly before `wallPostA.created_time`. -/
def timeB : PyDateTime := ⟨2021, 1, 1, 0, 0, 0⟩

/-- A concrete wall post authored by id 0 (so that it survives the
author-`False` comparison `post['from']['id'] == False`), liked only by
an entry named "Bob". -/
def wallPostC : Post :=
  ⟨⟨2021, 3, 5, 14, 30, 0⟩, ⟨0, "Zero"⟩, [⟨5, "Bob"⟩], [], "hello"⟩

/-- A user whose wall holds exactly `wallPostC`. -/
def userC : User := ⟨.null, .null, [wallPostC], []⟩

/-- Characters of the comma-joined ids are those of the ids interspersed
with commas. -/
theorem pyJoin_data (l : List String) :
    (pyJoin "," l).data = List.intercalate [','] (l.map String.data) := by
  match l with
  | [] => rfl
  | [s] => simp [pyJoin, List.intercalate]
  | s :: t :: rest =>
    have ih := pyJoin_data (t :: rest)
    simp only [pyJoin, String.data_append, ih]
    simp [List.intercalate]

/-- Claim C1 (counterexample): the decoded response `{"error": {}}` contains
an `error` field, yet `request` does not fail — `if response.get("error"):`
sees a falsy value and the response is returned unchanged. -/
theorem handleResponse_falsy_error_returned_ok :
    (pyLookup "error" [("error", Json.obj [])]).isSome = true ∧
    handleResponse [("error", Json.obj [])] = .ok (.obj [("error", Json.obj [])]) :=
  ⟨rfl, rfl⟩

/-- Claim C1 (amended): if the decoded response's `error` field is present
with a truthy value carrying `type` and `message` fields, `request` fails
with an ApiError holding exactly those two values; if the `error` field is
absent, or present but falsy, the decoded structure is returned unchanged. -/
theorem handleResponse_error_field_spec :
    (∀ (r ef : List (String × Json)) (t m : Json),
        pyLookup "error" r = some (.obj ef) → (Json.obj ef).truthy = true →
        pyLookup "type" ef = some t → pyLookup "message" ef = some m →
        handleResponse r = .error (.apiError t m)) ∧
    (∀ r : List (String × Json),
        pyLookup "error" r = none → handleResponse r = .ok (.obj r)) ∧
    (∀ (r : List (String × Json)) (e : Json),
        pyLookup "error" r = some e → e.truthy = false →
        handleResponse r = .ok (.obj r)) := by
  refine ⟨?_, ?_, ?_⟩
  · intro r ef t m h1 h2 h3 h4
    simp [handleResponse, h1, h2, h3, h4]
  · intro r h1
    simp [handleResponse, h1]
  · intro r e h1 h2
    simp only [handleResponse, h1, h2]
    cases e <;> simp_all

/-- Witness for `handleResponse_error_field_spec`, at the spec's own example
response and at an error-free response. -/
theorem handleResponse_error_field_spec_witness :
    handleResponse
        [("error", Json.obj [("type", Json.str "OAuthException"),
                             ("message", Json.str "Invalid token")])]
      = .error (.apiError (Json.str "OAuthException") (Json.str "Invalid token")) ∧
    handleResponse [("data", Json.arr [])] = .ok (.obj [("data", Json.arr [])]) ∧
    handleResponse [("error", Json.num 0)] = .ok (.obj [("error", Json.num 0)]) :=
  ⟨handleResponse_error_field_spec.1 _ _ _ _ rfl rfl rfl rfl,
   handleResponse_error_field_spec.2.1 _ rfl,
   handleResponse_error_field_spec.2.2 _ _ rfl rfl⟩

/-- Claim C2: with a credential set, `request` attaches the token to
`post_args` and leaves `args` untouched when `post_args` is provided, and
attaches it to `args` with no body otherwise — never to both. -/
theorem attachToken_body_xor_query (tok : String)
    (args : Option (List (String × Json))) (pa : List (String × Json)) :
    attachToken (some tok) args (some pa)
      = (normalizeArgs args, some (pySet pa "access_token" (.str tok))) ∧
    attachToken (some tok) args none
      = (pySet (normalizeArgs args) "access_token" (.str tok), none) :=
  ⟨rfl, rfl⟩

/-- Claim C3: for a list or set of ids (none containing a comma), `get_object`
passes `request` an args dict whose reserved `"ids"` key holds the
comma-joined id string, and splitting that string on commas recovers exactly
the input ids, in order — every id exactly once. -/
theorem get_object_ids_join_roundtrip (l : List String) (args : List (String × Json))
    (hne : l ≠ []) (hnc : ∀ s ∈ l, ',' ∉ s.data) :
    get_object (.list l) args = .ok (.list l, pySet args "ids" (.str (pyJoin "," l))) ∧
    get_object (.set l) args = .ok (.set l, pySet args "ids" (.str (pyJoin "," l))) ∧
    (pyJoin "," l).data.splitOn ',' = l.map String.data := by
  refine ⟨rfl, rfl, ?_⟩
  rw [pyJoin_data]
  refine List.splitOn_intercalate (l.map String.data) ',' ?_ ?_
  · intro l' hl'
    obtain ⟨s, hs, rfl⟩ := List.mem_map.1 hl'
    exact hnc s hs
  · simpa using hne

/-- Witness for `get_object_ids_join_roundtrip` at the id list `["4", "6"]`. -/
theorem get_object_ids_join_roundtrip_witness :
    get_object (.list ["4", "6"]) []
      = .ok (.list ["4", "6"], pySet [] "ids" (.str (pyJoin "," ["4", "6"]))) ∧
    get_object (.set ["4", "6"]) []
      = .ok (.set ["4", "6"], pySet [] "ids" (.str (pyJoin "," ["4", "6"]))) ∧
    (pyJoin "," ["4", "6"]).data.splitOn ',' = ["4", "6"].map String.data :=
  get_object_ids_join_roundtrip ["4", "6"] [] (by decide) (by decide)

/-- Claim C4: on the input `"2021-03-05T14:30:00+0000"` the normalization
step does not build a structured timestamp at all — `split('-T:+')` looks
for the literal substring `-T:+`, which does not occur, so the split returns
the whole string as its only part and the 7-way unpacking raises
`ValueError`. -/
theorem normalize_created_time_valueerror_on_iso :
    pySplit "-T:+" "2021-03-05T14:30:00+0000" = ["2021-03-05T14:30:00+0000"] ∧
    normalize_created_time "2021-03-05T14:30:00+0000" = .error .valueError :=
  ⟨by decide, rfl⟩

/-- Claim C5: the string branch of the liked-by filter is guarded on
`isinstance(author, str)` instead of `liked_by`, so with a string `liked_by`
and the author filter left at its default the likes data is never consulted:
`wallPostC` has no like named "Alice" and is kept anyway. -/
theorem filter_wall_likedBy_string_ignored :
    userC.filter_wall .fls .fls .fls (.str "Alice") .fls = [wallPostC] ∧
    wallPostC.likes.filter (fun l => pyEqStr l.name (.str "Alice")) = [] := by
  decide

/-- Claim C6: an id that is neither a string nor a list/set (an int, `None`)
makes `get_object` raise `Exception("Invalid id type.")` before any request
is issued. -/
theorem get_object_invalid_id_type (ids : Ids) (args : List (String × Json))
    (h1 : ids.isString = false) (h2 : ids.isCollection = false) :
    get_object ids args = .error .invalidArgument := by
  cases ids <;> simp_all [Ids.isString, Ids.isCollection, get_object]

/-- Witness for `get_object_invalid_id_type` at the integer id 7. -/
theorem get_object_invalid_id_type_witness :
    get_object (.int 7) [] = .error .invalidArgument :=
  get_object_invalid_id_type (.int 7) [] rfl rfl

/-- Claim C7: with every filter parameter left at its default `False`,
`filter_wall` is not the identity: since `isinstance(False, int)` holds in
Python, the author, liked-by and commented-by integer branches still run,
comparing ids against `False` (that is, 0), and `wallPostA` (author id 1)
is dropped. -/
theorem filter_wall_no_filters_not_identity :
    userA.filter_wall .fls .fls .fls .fls .fls = [] ∧
    userA.wall = [wallPostA] := by
  decide

/-- Claim C8: with `time_start` set to a timestamp strictly before the only
post's `created_time` and every other filter left at its default,
`filter_wall` still drops the post: the defaulted `False` arguments keep the
author/liked-by/commented-by integer branches active, so the result is not
"exactly the posts with created_time strictly greater than T". -/
theorem filter_wall_timeStart_extra_filtering :
    userA.filter_wall (.time timeB) .fls .fls .fls .fls = [] ∧
    timeB.ltb wallPostA.created_time = true ∧
    userA.wall = [wallPostA] := by
  decide

/-- Claim C9: `intersect` is commutative, its result holds exactly the ids
present in both like lists (the set intersection of the two sequences,
duplicates collapsed), and intersecting a profile with itself returns its
full deduplicated like set. -/
theorem intersect_comm_and_self (a b : User) :
    a.intersect b = b.intersect a ∧
    (∀ x : Int, x ∈ a.intersect b ↔ x ∈ a.likes ∧ x ∈ b.likes) ∧
    a.intersect a = a.likes.toFinset := by
  refine ⟨Finset.inter_comm _ _, ?_, Finset.inter_self _⟩
  intro x
  simp [User.intersect, User.intersectS, List.mem_toFinset]

/-- Claim C10: `filter_wall` and `intersect` only read the profile state;
the `self` (and, for `intersect`, the `friend`) state after the call is the
state before it, so `me`, `friends`, `wall` and `likes` are unchanged. -/
theorem filter_wall_intersect_frame (u f : User)
    (time_start time_end author liked_by commented_by : Arg) :
    (u.filter_wallS time_start time_end author liked_by commented_by).2 = u ∧
    (u.intersectS f).2.1 = u ∧ (u.intersectS f).2.2 = f :=
  ⟨rfl, rfl, rfl⟩
